import Mathlib

/-
  Verification development for the AI use-case registry's intake assessment
  engine: the risk tiering function (app/risk.py), the section completion
  tracker, the section-update merge rule, the autosave and submit operations
  (app/main.py), and the legacy use-case update path, embedded shallowly.
-/

namespace AIRegistry

/-- ASCII lowercase of one character; models Python str.lower on the ASCII
range, which covers the whole classification vocabulary of risk.py. -/
def lowerChar (c : Char) : Char :=
  if c.isUpper then Char.ofNat (c.toNat + 32) else c

/-- Model of Python str.lower restricted to ASCII case mapping. -/
def pyLower (s : String) : String := String.mk (s.data.map lowerChar)

/-- Data types considered high-risk, from risk.py (HIGH_RISK_DATA_TYPES). -/
def HIGH_RISK_DATA_TYPES : List String :=
  ["pii", "personal data", "health data", "financial data",
   "biometric", "biometric data", "location data", "genetic data"]

/-- Data types considered medium-risk, from risk.py (MEDIUM_RISK_DATA_TYPES). -/
def MEDIUM_RISK_DATA_TYPES : List String :=
  ["customer data", "employee data", "usage data", "behavioral data"]

/-- Data types considered low-risk, from risk.py; documentation only, the
scoring code never consults this set. -/
def LOW_RISK_DATA_TYPES : List String :=
  ["public data", "aggregated data", "product data", "internal documents"]

/-- Data residency locations that increase risk, from risk.py. -/
def HIGH_RISK_RESIDENCY : List String := ["international", "multi-region", "unknown"]

/-- Truthiness of the Python set intersection between the lowercased
data-type labels and a fixed classification set. -/
def intersectsLower (data_types : List String) (s : List String) : Bool :=
  data_types.any (fun dt => s.contains (pyLower dt))

/-- The risk_score accumulator built inside compute_risk_tier (risk.py,
lines 56-73): plus 3 for a high-risk data type, plus 1 for a medium-risk
data type, plus 2 for high-risk residency, plus 2 for external sharing. -/
def riskScore (data_types : List String) (data_residency : String)
    (external_sharing : String) : Nat :=
  (if intersectsLower data_types HIGH_RISK_DATA_TYPES then 3 else 0) +
  (if intersectsLower data_types MEDIUM_RISK_DATA_TYPES then 1 else 0) +
  (if HIGH_RISK_RESIDENCY.contains (pyLower data_residency) then 2 else 0) +
  (if pyLower external_sharing == "yes" then 2 else 0)

/-- compute_risk_tier from risk.py (lines 35-81): a score of at least 3 is
high, at least 1 is medium, otherwise low. -/
def computeRiskTier (data_types : List String) (data_residency : String)
    (external_sharing : String) : String :=
  let risk_score := riskScore data_types data_residency external_sharing
  if risk_score ≥ 3 then "high"
  else if risk_score ≥ 1 then "medium"
  else "low"

/-- Rank of a tier in the order low, medium, high; used to state
monotonicity of the tiering function. -/
def tierRank (t : String) : Nat :=
  if t == "high" then 2 else if t == "medium" then 1 else 0

/-- Acknowledgment of one named risk flag (schemas.py RiskFlagAcknowledgment). -/
structure RiskFlagAck where
  acknowledged : Bool
  notes : Option String

/-- Escalation contact (schemas.py EscalationContact). -/
structure EscalationContact where
  name : String
  role : String
  email : Option String

/-- One risk finding row (models.py RiskAssessment). -/
structure RiskAssessment where
  id : Int
  intake_id : Int
  risk_category : Option String
  risk_description : String
  is_mitigated : Bool
  mitigation_status : Option String
  mitigation_details : Option String
  residual_risk_level : Option String
  residual_exposure : Option String
  created_at : Nat

/-- One required governance artifact row (models.py RequiredArtifact). -/
structure RequiredArtifact where
  id : Int
  intake_id : Int
  gap_description : Option String
  artifact_type : Option String
  artifact_name : String
  owner : Option String
  owner_email : Option String
  due_date : Option Nat
  status : String
  notes : Option String
  created_at : Nat

/-- One action item row (models.py ActionItem). -/
structure ActionItem where
  id : Int
  intake_id : Int
  action_description : String
  responsible_party : Option String
  responsible_party_email : Option String
  urgency_level : String
  due_date : Option Nat
  status : String
  notes : Option String
  created_at : Nat
  completed_at : Option Nat

/-- The intake record (models.py Intake), with nullable columns as Option,
JSON list columns as Option on lists, datetimes as Nat timestamps, and the
three owned collections as lists. -/
structure Intake where
  id : Int
  system_name : Option String
  business_purpose : Option String
  build_vs_buy : Option String
  vendor_name : Option String
  deployment_status : Option String
  user_count : Option Int
  human_in_the_loop : Option String
  integration_points : Option (List String)
  technical_constraints : Option String
  decision_classification : Option String
  output_usage_description : Option String
  risk_flags : Option (List (String × RiskFlagAck))
  approved_data_types : Option (List String)
  prohibited_data_types : Option (List String)
  user_awareness_training : Option Bool
  user_awareness_attestation : Option Bool
  technical_prevention_measures : Option (List String)
  data_retention_policy : Option String
  data_retention_details : Option String
  data_egress_risk : Option String
  data_egress_notes : Option String
  approving_authority : Option String
  approving_authority_title : Option String
  approving_authority_email : Option String
  business_owner : Option String
  business_owner_email : Option String
  technical_owner : Option String
  technical_owner_email : Option String
  access_control_owner : Option String
  risk_oversight_owner : Option String
  federal_contracts : Option Bool
  federal_contract_types : Option (List String)
  federal_contract_details : Option String
  tenant_segregation : Option Bool
  tenant_segregation_details : Option String
  contract_clause_restrictions : Option (List String)
  workforce_impact : Option String
  workforce_impact_details : Option String
  customer_impact : Option String
  customer_impact_details : Option String
  usage_logging_enabled : Option Bool
  usage_logging_details : Option String
  logging_access_owner : Option String
  compliance_visibility : Option Bool
  compliance_visibility_details : Option String
  misuse_detection_capability : Option Bool
  misuse_detection_details : Option String
  incident_response_documented : Option Bool
  incident_response_path : Option String
  escalation_contacts : Option (List EscalationContact)
  identified_gaps : Option (List String)
  readiness_status : Option String
  conditions_for_approval : Option (List String)
  restrictions : Option (List String)
  recommended_phase : Option String
  readiness_notes : Option String
  readiness_computed_at : Option Nat
  intake_status : String
  current_step : Option Int
  section_completion : List (String × Bool)
  computed_risk_tier : Option String
  created_at : Nat
  updated_at : Nat
  submitted_at : Option Nat
  last_autosave_at : Option Nat
  risk_assessments : List RiskAssessment
  required_artifacts : List RequiredArtifact
  action_items : List ActionItem

/-- Python truthiness of a nullable string: false for null and for the empty
string. -/
def truthyStr : Option String → Bool
  | none => false
  | some s => !(s == "")

/-- Python truthiness of a nullable list: false for null and for the empty
list. -/
def truthyList {α : Type} : Option (List α) → Bool
  | none => false
  | some l => !l.isEmpty

/-- compute_section_completion from main.py (lines 40-78), producing the dict
with the string keys 1 to 10 in insertion order. -/
def computeSectionCompletion (intake : Intake) : List (String × Bool) :=
  [("1", truthyStr intake.system_name && truthyStr intake.business_purpose),
   ("2", truthyStr intake.decision_classification),
   ("3", truthyList intake.approved_data_types || truthyList intake.prohibited_data_types),
   ("4", truthyStr intake.approving_authority &&
         (truthyStr intake.business_owner && truthyStr intake.technical_owner)),
   ("5", true),
   ("6", true),
   ("7", decide (intake.risk_assessments.length > 0)),
   ("8", true),
   ("9", true),
   ("10", true)]

/-- A nullable string field holds an actual, non-empty value. -/
def NonEmptyStr (o : Option String) : Prop := ∃ s, o = some s ∧ s ≠ ""

/-- A nullable list field holds at least one entry. -/
def HasEntry {α : Type} (o : Option (List α)) : Prop := ∃ l, o = some l ∧ l ≠ []

/-
  Partial update structures (schemas.py). Pydantic model_dump with
  exclude_unset distinguishes a field that was never sent from a field sent
  as an explicit null, so every section field is an Option on an Option: the
  outer none means the field was absent from the update, some none means it
  was sent as null (clear), and some (some v) means it was sent with value v.
-/

/-- Section 1 partial update (schemas.py Section1Inventory). -/
structure Section1Inventory where
  system_name : Option (Option String) := none
  business_purpose : Option (Option String) := none
  build_vs_buy : Option (Option String) := none
  vendor_name : Option (Option String) := none
  deployment_status : Option (Option String) := none
  user_count : Option (Option Int) := none
  human_in_the_loop : Option (Option String) := none
  integration_points : Option (Option (List String)) := none
  technical_constraints : Option (Option String) := none

/-- Section 2 partial update (schemas.py Section2DecisionImpact). -/
structure Section2DecisionImpact where
  decision_classification : Option (Option String) := none
  output_usage_description : Option (Option String) := none
  risk_flags : Option (Option (List (String × RiskFlagAck))) := none

/-- Section 3 partial update (schemas.py Section3DataSensitivity). -/
structure Section3DataSensitivity where
  approved_data_types : Option (Option (List String)) := none
  prohibited_data_types : Option (Option (List String)) := none
  user_awareness_training : Option (Option Bool) := none
  user_awareness_attestation : Option (Option Bool) := none
  technical_prevention_measures : Option (Option (List String)) := none
  data_retention_policy : Option (Option String) := none
  data_retention_details : Option (Option String) := none
  data_egress_risk : Option (Option String) := none
  data_egress_notes : Option (Option String) := none

/-- Section 4 partial update (schemas.py Section4Ownership). -/
structure Section4Ownership where
  approving_authority : Option (Option String) := none
  approving_authority_title : Option (Option String) := none
  approving_authority_email : Option (Option String) := none
  business_owner : Option (Option String) := none
  business_owner_email : Option (Option String) := none
  technical_owner : Option (Option String) := none
  technical_owner_email : Option (Option String) := none
  access_control_owner : Option (Option String) := none
  risk_oversight_owner : Option (Option String) := none

/-- Section 5 partial update (schemas.py Section5Regulatory). -/
structure Section5Regulatory where
  federal_contracts : Option (Option Bool) := none
  federal_contract_types : Option (Option (List String)) := none
  federal_contract_details : Option (Option String) := none
  tenant_segregation : Option (Option Bool) := none
  tenant_segregation_details : Option (Option String) := none
  contract_clause_restrictions : Option (Option (List String)) := none
  workforce_impact : Option (Option String) := none
  workforce_impact_details : Option (Option String) := none
  customer_impact : Option (Option String) := none
  customer_impact_details : Option (Option String) := none

/-- Section 6 partial update (schemas.py Section6Monitoring). -/
structure Section6Monitoring where
  usage_logging_enabled : Option (Option Bool) := none
  usage_logging_details : Option (Option String) := none
  logging_access_owner : Option (Option String) := none
  compliance_visibility : Option (Option Bool) := none
  compliance_visibility_details : Option (Option String) := none
  misuse_detection_capability : Option (Option Bool) := none
  misuse_detection_details : Option (Option String) := none
  incident_response_documented : Option (Option Bool) := none
  incident_response_path : Option (Option String) := none
  escalation_contacts : Option (Option (List EscalationContact)) := none

/-- Section 9 partial update (schemas.py Section9Readiness). -/
structure Section9Readiness where
  readiness_status : Option (Option String) := none
  conditions_for_approval : Option (Option (List String)) := none
  restrictions : Option (Option (List String)) := none
  recommended_phase : Option (Option String) := none
  readiness_notes : Option (Option String) := none

/-- The section-grouped autosave update (schemas.py IntakeSectionUpdate).
A section set to an explicit null, or set with every field unset, is
extensionally a no-op in apply_section_updates, so each section is a single
Option. The two pseudo-fields keep the two-level Option because an explicit
null on them is assigned through to the record. -/
structure IntakeSectionUpdate where
  section_1 : Option Section1Inventory := none
  section_2 : Option Section2DecisionImpact := none
  section_3 : Option Section3DataSensitivity := none
  section_4 : Option Section4Ownership := none
  section_5 : Option Section5Regulatory := none
  section_6 : Option Section6Monitoring := none
  section_9 : Option Section9Readiness := none
  identified_gaps : Option (Option (List String)) := none
  current_step : Option (Option Int) := none

/-- Merge of one field sent at the top level of the update (assigned even
when the sent value is null). -/
def mergeField {α : Type} (u : Option α) (cur : α) : α := u.getD cur

/-- Merge of one field inside a section: the field keeps its current value
unless the section is present in the update and the field was set in it. -/
def mf {σ α : Type} (sec : Option σ) (get : σ → Option (Option α))
    (cur : Option α) : Option α :=
  match sec with
  | none => cur
  | some s => mergeField (get s) cur

/-- apply_section_updates from main.py (lines 81-94). The Python code walks
the dumped update dict and setattrs each set field onto the record; since
every field is written at most once and the sections touch disjoint fields,
this is rendered as one explicit per-field merge (the rendering the spec
itself prescribes for the dynamic setattr loop). -/
def applySectionUpdates (intake : Intake) (updates : IntakeSectionUpdate) : Intake :=
  { intake with
    system_name := mf updates.section_1 Section1Inventory.system_name intake.system_name,
    business_purpose := mf updates.section_1 Section1Inventory.business_purpose intake.business_purpose,
    build_vs_buy := mf updates.section_1 Section1Inventory.build_vs_buy intake.build_vs_buy,
    vendor_name := mf updates.section_1 Section1Inventory.vendor_name intake.vendor_name,
    deployment_status := mf updates.section_1 Section1Inventory.deployment_status intake.deployment_status,
    user_count := mf updates.section_1 Section1Inventory.user_count intake.user_count,
    human_in_the_loop := mf updates.section_1 Section1Inventory.human_in_the_loop intake.human_in_the_loop,
    integration_points := mf updates.section_1 Section1Inventory.integration_points intake.integration_points,
    technical_constraints := mf updates.section_1 Section1Inventory.technical_constraints intake.technical_constraints,
    decision_classification := mf updates.section_2 Section2DecisionImpact.decision_classification intake.decision_classification,
    output_usage_description := mf updates.section_2 Section2DecisionImpact.output_usage_description intake.output_usage_description,
    risk_flags := mf updates.section_2 Section2DecisionImpact.risk_flags intake.risk_flags,
    approved_data_types := mf updates.section_3 Section3DataSensitivity.approved_data_types intake.approved_data_types,
    prohibited_data_types := mf updates.section_3 Section3DataSensitivity.prohibited_data_types intake.prohibited_data_types,
    user_awareness_training := mf updates.section_3 Section3DataSensitivity.user_awareness_training intake.user_awareness_training,
    user_awareness_attestation := mf updates.section_3 Section3DataSensitivity.user_awareness_attestation intake.user_awareness_attestation,
    technical_prevention_measures := mf updates.section_3 Section3DataSensitivity.technical_prevention_measures intake.technical_prevention_measures,
    data_retention_policy := mf updates.section_3 Section3DataSensitivity.data_retention_policy intake.data_retention_policy,
    data_retention_details := mf updates.section_3 Section3DataSensitivity.data_retention_details intake.data_retention_details,
    data_egress_risk := mf updates.section_3 Section3DataSensitivity.data_egress_risk intake.data_egress_risk,
    data_egress_notes := mf updates.section_3 Section3DataSensitivity.data_egress_notes intake.data_egress_notes,
    approving_authority := mf updates.section_4 Section4Ownership.approving_authority intake.approving_authority,
    approving_authority_title := mf updates.section_4 Section4Ownership.approving_authority_title intake.approving_authority_title,
    approving_authority_email := mf updates.section_4 Section4Ownership.approving_authority_email intake.approving_authority_email,
    business_owner := mf updates.section_4 Section4Ownership.business_owner intake.business_owner,
    business_owner_email := mf updates.section_4 Section4Ownership.business_owner_email intake.business_owner_email,
    technical_owner := mf updates.section_4 Section4Ownership.technical_owner intake.technical_owner,
    technical_owner_email := mf updates.section_4 Section4Ownership.technical_owner_email intake.technical_owner_email,
    access_control_owner := mf updates.section_4 Section4Ownership.access_control_owner intake.access_control_owner,
    risk_oversight_owner := mf updates.section_4 Section4Ownership.risk_oversight_owner intake.risk_oversight_owner,
    federal_contracts := mf updates.section_5 Section5Regulatory.federal_contracts intake.federal_contracts,
    federal_contract_types := mf updates.section_5 Section5Regulatory.federal_contract_types intake.federal_contract_types,
    federal_contract_details := mf updates.section_5 Section5Regulatory.federal_contract_details intake.federal_contract_details,
    tenant_segregation := mf updates.section_5 Section5Regulatory.tenant_segregation intake.tenant_segregation,
    tenant_segregation_details := mf updates.section_5 Section5Regulatory.tenant_segregation_details intake.tenant_segregation_details,
    contract_clause_restrictions := mf updates.section_5 Section5Regulatory.contract_clause_restrictions intake.contract_clause_restrictions,
    workforce_impact := mf updates.section_5 Section5Regulatory.workforce_impact intake.workforce_impact,
    workforce_impact_details := mf updates.section_5 Section5Regulatory.workforce_impact_details intake.workforce_impact_details,
    customer_impact := mf updates.section_5 Section5Regulatory.customer_impact intake.customer_impact,
    customer_impact_details := mf updates.section_5 Section5Regulatory.customer_impact_details intake.customer_impact_details,
    usage_logging_enabled := mf updates.section_6 Section6Monitoring.usage_logging_enabled intake.usage_logging_enabled,
    usage_logging_details := mf updates.section_6 Section6Monitoring.usage_logging_details intake.usage_logging_details,
    logging_access_owner := mf updates.section_6 Section6Monitoring.logging_access_owner intake.logging_access_owner,
    compliance_visibility := mf updates.section_6 Section6Monitoring.compliance_visibility intake.compliance_visibility,
    compliance_visibility_details := mf updates.section_6 Section6Monitoring.compliance_visibility_details intake.compliance_visibility_details,
    misuse_detection_capability := mf updates.section_6 Section6Monitoring.misuse_detection_capability intake.misuse_detection_capability,
    misuse_detection_details := mf updates.section_6 Section6Monitoring.misuse_detection_details intake.misuse_detection_details,
    incident_response_documented := mf updates.section_6 Section6Monitoring.incident_response_documented intake.incident_response_documented,
    incident_response_path := mf updates.section_6 Section6Monitoring.incident_response_path intake.incident_response_path,
    escalation_contacts := mf updates.section_6 Section6Monitoring.escalation_contacts intake.escalation_contacts,
    readiness_status := mf updates.section_9 Section9Readiness.readiness_status intake.readiness_status,
    conditions_for_approval := mf updates.section_9 Section9Readiness.conditions_for_approval intake.conditions_for_approval,
    restrictions := mf updates.section_9 Section9Readiness.restrictions intake.restrictions,
    recommended_phase := mf updates.section_9 Section9Readiness.recommended_phase intake.recommended_phase,
    readiness_notes := mf updates.section_9 Section9Readiness.readiness_notes intake.readiness_notes,
    identified_gaps := mergeField updates.identified_gaps intake.identified_gaps,
    current_step := mergeField updates.current_step intake.current_step }

/-- update_intake, the autosave endpoint from main.py (lines 431-452), on a
record already found: apply the section updates, recompute the completion
map from the post-merge state, and stamp the autosave time. -/
def updateIntake (intake : Intake) (updates : IntakeSectionUpdate) (now : Nat) : Intake :=
  let merged := applySectionUpdates intake updates
  { merged with
    section_completion := computeSectionCompletion merged,
    last_autosave_at := some now }

/-- submit_intake from main.py (lines 455-468), on a record already found:
the status is set to submitted and the submission time stamped, with no
check of the prior status. -/
def submitIntake (intake : Intake) (now : Nat) : Intake :=
  { intake with intake_status := "submitted", submitted_at := some now }

/-- Legacy use case record (models.py UseCase). -/
@[ext]
structure UseCase where
  id : Int
  title : String
  owner : String
  business_unit : String
  purpose : String
  model_type : String
  vendor : String
  data_types : List String
  data_residency : String
  external_sharing : String
  risk_tier : String
  status : String
  created_at : Nat
  updated_at : Nat

/-- Legacy partial update (schemas.py UseCaseUpdate): every field optional,
absent fields excluded from the dump and left untouched. -/
structure UseCaseUpdate where
  title : Option String := none
  owner : Option String := none
  business_unit : Option String := none
  purpose : Option String := none
  model_type : Option String := none
  vendor : Option String := none
  data_types : Option (List String) := none
  data_residency : Option String := none
  external_sharing : Option String := none
  status : Option String := none

/-- update_usecase from main.py (lines 227-255), on a record already found:
setattr every field present in the dumped update, then recompute the risk
tier exactly when one of the three risk fields was part of the update. -/
def updateUsecase (usecase : UseCase) (u : UseCaseUpdate) : UseCase :=
  let uc :=
    { usecase with
      title := u.title.getD usecase.title,
      owner := u.owner.getD usecase.owner,
      business_unit := u.business_unit.getD usecase.business_unit,
      purpose := u.purpose.getD usecase.purpose,
      model_type := u.model_type.getD usecase.model_type,
      vendor := u.vendor.getD usecase.vendor,
      data_types := u.data_types.getD usecase.data_types,
      data_residency := u.data_residency.getD usecase.data_residency,
      external_sharing := u.external_sharing.getD usecase.external_sharing,
      status := u.status.getD usecase.status }
  if u.data_types.isSome || u.data_residency.isSome || u.external_sharing.isSome then
    { uc with risk_tier := computeRiskTier uc.data_types uc.data_residency uc.external_sharing }
  else uc

/-- A concrete intake record with every nullable field clear, used as a base
point for the closed witness and counterexample theorems. -/
def blankIntake : Intake where
  id := 1
  system_name := none
  business_purpose := none
  build_vs_buy := none
  vendor_name := none
  deployment_status := none
  user_count := none
  human_in_the_loop := none
  integration_points := none
  technical_constraints := none
  decision_classification := none
  output_usage_description := none
  risk_flags := none
  approved_data_types := none
  prohibited_data_types := none
  user_awareness_training := none
  user_awareness_attestation := none
  technical_prevention_measures := none
  data_retention_policy := none
  data_retention_details := none
  data_egress_risk := none
  data_egress_notes := none
  approving_authority := none
  approving_authority_title := none
  approving_authority_email := none
  business_owner := none
  business_owner_email := none
  technical_owner := none
  technical_owner_email := none
  access_control_owner := none
  risk_oversight_owner := none
  federal_contracts := none
  federal_contract_types := none
  federal_contract_details := none
  tenant_segregation := none
  tenant_segregation_details := none
  contract_clause_restrictions := none
  workforce_impact := none
  workforce_impact_details := none
  customer_impact := none
  customer_impact_details := none
  usage_logging_enabled := none
  usage_logging_details := none
  logging_access_owner := none
  compliance_visibility := none
  compliance_visibility_details := none
  misuse_detection_capability := none
  misuse_detection_details := none
  incident_response_documented := none
  incident_response_path := none
  escalation_contacts := none
  identified_gaps := none
  readiness_status := none
  conditions_for_approval := none
  restrictions := none
  recommended_phase := none
  readiness_notes := none
  readiness_computed_at := none
  intake_status := "draft"
  current_step := some 1
  section_completion := []
  computed_risk_tier := none
  created_at := 0
  updated_at := 0
  submitted_at := none
  last_autosave_at := none
  risk_assessments := []
  required_artifacts := []
  action_items := []

/-- A concrete intake whose section 3 already carries an approved list and a
prohibited list, used by the merge witnesses. -/
def intakeWithData : Intake :=
  { blankIntake with
    approved_data_types := some ["pii"],
    prohibited_data_types := some ["health data"] }

/-- A concrete update that sends section 3 with only the approved list set,
to an explicit empty list. -/
def clearApprovedUpdate : IntakeSectionUpdate :=
  { section_3 := some { approved_data_types := some (some []) } }


/-
  Helper lemmas shared by the claim theorems.
-/

/-- Intersection with a fixed set is monotone under lowercase-containment of
the data-type lists. -/
theorem intersectsLower_mono (l S T : List String)
    (hsub : ∀ x ∈ S, ∃ y ∈ T, pyLower x = pyLower y)
    (h : intersectsLower S l = true) : intersectsLower T l = true := by
  rw [intersectsLower, List.any_eq_true] at h ⊢
  obtain ⟨x, hx, hc⟩ := h
  obtain ⟨y, hy, hxy⟩ := hsub x hx
  exact ⟨y, hy, hxy ▸ hc⟩

/-- A medium-risk label is never a high-risk label. -/
theorem medium_not_high (s : String)
    (h : MEDIUM_RISK_DATA_TYPES.contains s = true) :
    HIGH_RISK_DATA_TYPES.contains s = false := by
  have hm : s ∈ MEDIUM_RISK_DATA_TYPES := List.mem_of_elem_eq_true h
  simp only [MEDIUM_RISK_DATA_TYPES, List.mem_cons, List.not_mem_nil, or_false] at hm
  rcases hm with h1 | h1 | h1 | h1 <;> subst h1 <;> decide

/-- A high-risk label is never a medium-risk label. -/
theorem high_not_medium (s : String)
    (h : HIGH_RISK_DATA_TYPES.contains s = true) :
    MEDIUM_RISK_DATA_TYPES.contains s = false := by
  have hm : s ∈ HIGH_RISK_DATA_TYPES := List.mem_of_elem_eq_true h
  simp only [HIGH_RISK_DATA_TYPES, List.mem_cons, List.not_mem_nil, or_false] at hm
  rcases hm with h1 | h1 | h1 | h1 | h1 | h1 | h1 | h1 <;> subst h1 <;> decide

/-- The risk score is monotone under lowercase-containment of the data-type
lists: adding labels can only raise the score. -/
theorem riskScore_mono (S T : List String) (res sh : String)
    (hsub : ∀ x ∈ S, ∃ y ∈ T, pyLower x = pyLower y) :
    riskScore S res sh ≤ riskScore T res sh := by
  unfold riskScore
  have hH := intersectsLower_mono HIGH_RISK_DATA_TYPES S T hsub
  have hM := intersectsLower_mono MEDIUM_RISK_DATA_TYPES S T hsub
  have h1 : (if intersectsLower S HIGH_RISK_DATA_TYPES then 3 else 0) ≤
      (if intersectsLower T HIGH_RISK_DATA_TYPES then 3 else 0) := by
    by_cases h : intersectsLower S HIGH_RISK_DATA_TYPES = true
    · rw [if_pos h, if_pos (hH h)]
    · rw [if_neg h]; split <;> omega
  have h2 : (if intersectsLower S MEDIUM_RISK_DATA_TYPES then 1 else 0) ≤
      (if intersectsLower T MEDIUM_RISK_DATA_TYPES then 1 else 0) := by
    by_cases h : intersectsLower S MEDIUM_RISK_DATA_TYPES = true
    · rw [if_pos h, if_pos (hM h)]
    · rw [if_neg h]; split <;> omega
  omega

/-- The tier rank is monotone in the score. -/
theorem tierRank_tier_mono (S T : List String) (res sh : String)
    (h : riskScore S res sh ≤ riskScore T res sh) :
    tierRank (computeRiskTier S res sh) ≤ tierRank (computeRiskTier T res sh) := by
  simp only [computeRiskTier]
  split_ifs <;> first | decide | omega

/-- Equal scores give equal tiers. -/
theorem tier_congr (S T : List String) (res sh : String)
    (h : riskScore S res sh = riskScore T res sh) :
    computeRiskTier S res sh = computeRiskTier T res sh := by
  unfold computeRiskTier
  rw [h]

/-- Truthiness of a nullable string means an actual non-empty value. -/
theorem truthyStr_eq_true_iff (o : Option String) :
    truthyStr o = true ↔ NonEmptyStr o := by
  cases o <;> simp [truthyStr, NonEmptyStr]

/-- Truthiness of a nullable list means an actual non-empty list. -/
theorem truthyList_eq_true_iff {α : Type} (o : Option (List α)) :
    truthyList o = true ↔ HasEntry o := by
  cases o <;> simp [truthyList, HasEntry]

/-
  Claim theorems.
-/

/-- C1: compute_risk_tier returns exactly the tier of the weighted rule
score: plus 3 when the lowercased data types meet the high-sensitivity set,
plus 1 for the medium-sensitivity set, plus 2 for international,
multi-region or unknown residency, plus 2 for external sharing yes; the
tier is high exactly when the score is at least 3, medium exactly when it
is between 1 and 2, low exactly when it is 0; and the spec example
tier of pii, international, yes is high with score 7. -/
theorem risk_tier_weighted_score_spec (dts : List String) (res sh : String) :
    ((computeRiskTier dts res sh = "high") ↔ 3 ≤ riskScore dts res sh)
    ∧ ((computeRiskTier dts res sh = "medium") ↔
        (1 ≤ riskScore dts res sh ∧ riskScore dts res sh < 3))
    ∧ ((computeRiskTier dts res sh = "low") ↔ riskScore dts res sh = 0)
    ∧ riskScore dts res sh =
        (if dts.any (fun dt => (["pii", "personal data", "health data", "financial data",
            "biometric", "biometric data", "location data", "genetic data"] : List String).contains
            (pyLower dt)) then 3 else 0) +
        (if dts.any (fun dt => (["customer data", "employee data", "usage data",
            "behavioral data"] : List String).contains (pyLower dt)) then 1 else 0) +
        (if (["international", "multi-region", "unknown"] : List String).contains
            (pyLower res) then 2 else 0) +
        (if pyLower sh == "yes" then 2 else 0)
    ∧ computeRiskTier ["pii"] "international" "yes" = "high"
    ∧ riskScore ["pii"] "international" "yes" = 7 := by
  refine ⟨?_, ?_, ?_, rfl, by decide, by decide⟩ <;>
    (simp only [computeRiskTier]; split_ifs <;> simp_all <;> omega)

/-- C2: the completion map has exactly the keys 1 to 10 in order, section 1
holds exactly when system name and business purpose are non-empty, section
2 exactly when a decision classification is set, section 3 exactly when an
approved or prohibited data type entry exists, section 4 exactly when the
three owners are non-empty, section 7 exactly when a risk finding exists,
and sections 5, 6, 8, 9 and 10 unconditionally. -/
theorem completion_map_spec (i : Intake) :
    (computeSectionCompletion i).map Prod.fst =
      ["1", "2", "3", "4", "5", "6", "7", "8", "9", "10"]
    ∧ ((computeSectionCompletion i).lookup "1" = some true ↔
        (NonEmptyStr i.system_name ∧ NonEmptyStr i.business_purpose))
    ∧ ((computeSectionCompletion i).lookup "2" = some true ↔
        NonEmptyStr i.decision_classification)
    ∧ ((computeSectionCompletion i).lookup "3" = some true ↔
        (HasEntry i.approved_data_types ∨ HasEntry i.prohibited_data_types))
    ∧ ((computeSectionCompletion i).lookup "4" = some true ↔
        (NonEmptyStr i.approving_authority ∧ NonEmptyStr i.business_owner ∧
         NonEmptyStr i.technical_owner))
    ∧ (computeSectionCompletion i).lookup "5" = some true
    ∧ (computeSectionCompletion i).lookup "6" = some true
    ∧ ((computeSectionCompletion i).lookup "7" = some true ↔ i.risk_assessments ≠ [])
    ∧ (computeSectionCompletion i).lookup "8" = some true
    ∧ (computeSectionCompletion i).lookup "9" = some true
    ∧ (computeSectionCompletion i).lookup "10" = some true := by
  refine ⟨rfl, ?_, ?_, ?_, ?_, rfl, rfl, ?_, rfl, rfl, rfl⟩
  · rw [show (computeSectionCompletion i).lookup "1" =
        some (truthyStr i.system_name && truthyStr i.business_purpose) from rfl]
    simp [Bool.and_eq_true, truthyStr_eq_true_iff]
  · rw [show (computeSectionCompletion i).lookup "2" =
        some (truthyStr i.decision_classification) from rfl]
    simp [truthyStr_eq_true_iff]
  · rw [show (computeSectionCompletion i).lookup "3" =
        some (truthyList i.approved_data_types || truthyList i.prohibited_data_types) from rfl]
    simp [Bool.or_eq_true, truthyList_eq_true_iff]
  · rw [show (computeSectionCompletion i).lookup "4" =
        some (truthyStr i.approving_authority &&
          (truthyStr i.business_owner && truthyStr i.technical_owner)) from rfl]
    simp [Bool.and_eq_true, truthyStr_eq_true_iff]
  · rw [show (computeSectionCompletion i).lookup "7" =
        some (decide (i.risk_assessments.length > 0)) from rfl]
    simp [List.length_pos]

/-- C5: the high-sensitivity contribution fires at most once. Collapsing
all high-sensitivity labels of the data-type list to a single one leaves
both the score and the tier unchanged; the spec example with three
high-sensitivity labels scores 3, the same as a single match. -/
theorem high_risk_single_contribution (dts : List String) (res sh h : String)
    (hh : HIGH_RISK_DATA_TYPES.contains (pyLower h) = true)
    (hdts : intersectsLower dts HIGH_RISK_DATA_TYPES = true) :
    riskScore dts res sh =
      riskScore (dts.filter (fun dt => !HIGH_RISK_DATA_TYPES.contains (pyLower dt)) ++ [h]) res sh
    ∧ computeRiskTier dts res sh =
      computeRiskTier (dts.filter (fun dt => !HIGH_RISK_DATA_TYPES.contains (pyLower dt)) ++ [h])
        res sh := by
  have hH : intersectsLower
      (dts.filter (fun dt => !HIGH_RISK_DATA_TYPES.contains (pyLower dt)) ++ [h])
      HIGH_RISK_DATA_TYPES = true := by
    rw [intersectsLower, List.any_eq_true]
    exact ⟨h, by simp, hh⟩
  have hM : intersectsLower
      (dts.filter (fun dt => !HIGH_RISK_DATA_TYPES.contains (pyLower dt)) ++ [h])
      MEDIUM_RISK_DATA_TYPES = intersectsLower dts MEDIUM_RISK_DATA_TYPES := by
    rw [intersectsLower, intersectsLower]
    apply Bool.eq_iff_iff.mpr
    rw [List.any_eq_true, List.any_eq_true]
    constructor
    · rintro ⟨x, hx, hcx⟩
      rcases List.mem_append.mp hx with hx | hx
      · exact ⟨x, (List.mem_filter.mp hx).1, hcx⟩
      · rcases List.mem_singleton.mp hx with rfl
        rw [high_not_medium _ hh] at hcx
        exact absurd hcx (by simp)
    · rintro ⟨x, hx, hcx⟩
      refine ⟨x, List.mem_append.mpr (Or.inl (List.mem_filter.mpr ⟨hx, ?_⟩)), hcx⟩
      rw [medium_not_high _ hcx]
      rfl
  have hs : riskScore dts res sh =
      riskScore (dts.filter (fun dt => !HIGH_RISK_DATA_TYPES.contains (pyLower dt)) ++ [h])
        res sh := by
    rw [riskScore, riskScore, hH, hM, hdts]
  exact ⟨hs, by rw [computeRiskTier, computeRiskTier, hs]⟩

/-- C5 witness: at the spec example, collapsing the three high-sensitivity
labels pii, personal data, health data to the single label pii preserves
the score, which is 3, and the tier, which is high. -/
theorem high_risk_single_contribution_witness :
    riskScore ["pii", "personal data", "health data"] "us" "no" =
      riskScore ((["pii", "personal data", "health data"].filter
        (fun dt => !HIGH_RISK_DATA_TYPES.contains (pyLower dt))) ++ ["pii"]) "us" "no"
    ∧ riskScore ["pii", "personal data", "health data"] "us" "no" = 3
    ∧ computeRiskTier ["pii", "personal data", "health data"] "us" "no" = "high" := by
  refine ⟨(high_risk_single_contribution ["pii", "personal data", "health data"]
    "us" "no" "pii" (by decide) (by decide)).1, by decide, by decide⟩

/-- C6: compute_risk_tier is total with no error outcome: it always returns
one of low, medium or high, and a data-type label, residency value or
sharing value outside the recognized vocabularies contributes nothing, so
it leaves the result unchanged rather than being rejected. -/
theorem risk_tier_total_silent_nonmatch (dts : List String) (res sh : String) :
    (computeRiskTier dts res sh = "low" ∨ computeRiskTier dts res sh = "medium" ∨
      computeRiskTier dts res sh = "high")
    ∧ (∀ x : String, HIGH_RISK_DATA_TYPES.contains (pyLower x) = false →
        MEDIUM_RISK_DATA_TYPES.contains (pyLower x) = false →
        computeRiskTier (x :: dts) res sh = computeRiskTier dts res sh)
    ∧ (∀ res2 : String, HIGH_RISK_RESIDENCY.contains (pyLower res) = false →
        HIGH_RISK_RESIDENCY.contains (pyLower res2) = false →
        computeRiskTier dts res sh = computeRiskTier dts res2 sh)
    ∧ (∀ sh2 : String, (pyLower sh == "yes") = false → (pyLower sh2 == "yes") = false →
        computeRiskTier dts res sh = computeRiskTier dts res sh2) := by
  refine ⟨?_, ?_, ?_, ?_⟩
  · simp only [computeRiskTier]
    split_ifs <;> simp
  · intro x hx1 hx2
    have hx1m : pyLower x ∉ HIGH_RISK_DATA_TYPES := by simp at hx1; exact hx1
    have hx2m : pyLower x ∉ MEDIUM_RISK_DATA_TYPES := by simp at hx2; exact hx2
    have h1 : intersectsLower (x :: dts) HIGH_RISK_DATA_TYPES =
        intersectsLower dts HIGH_RISK_DATA_TYPES := by
      simp [intersectsLower, List.any_cons, hx1m]
    have h2 : intersectsLower (x :: dts) MEDIUM_RISK_DATA_TYPES =
        intersectsLower dts MEDIUM_RISK_DATA_TYPES := by
      simp [intersectsLower, List.any_cons, hx2m]
    rw [computeRiskTier, computeRiskTier, riskScore, riskScore, h1, h2]
  · intro res2 h1 h2
    rw [computeRiskTier, computeRiskTier, riskScore, riskScore, h1, h2]
  · intro sh2 h1 h2
    rw [computeRiskTier, computeRiskTier, riskScore, riskScore, h1, h2]

/-- C6 witness: an unrecognized data-type label, residency and sharing value
are silently ignored on a concrete input, and the output is one of the three
tiers. -/
theorem risk_tier_total_silent_nonmatch_witness :
    computeRiskTier ["weather", "pii"] "us" "no" = computeRiskTier ["pii"] "us" "no"
    ∧ computeRiskTier ["pii"] "us" "no" = computeRiskTier ["pii"] "eu-west" "no"
    ∧ computeRiskTier ["pii"] "us" "no" = computeRiskTier ["pii"] "us" "nope"
    ∧ (computeRiskTier ["pii"] "us" "no" = "low" ∨ computeRiskTier ["pii"] "us" "no" = "medium" ∨
        computeRiskTier ["pii"] "us" "no" = "high") := by
  refine ⟨(risk_tier_total_silent_nonmatch ["pii"] "us" "no").2.1 "weather"
      (by decide) (by decide),
    (risk_tier_total_silent_nonmatch ["pii"] "us" "no").2.2.1 "eu-west"
      (by decide) (by decide),
    (risk_tier_total_silent_nonmatch ["pii"] "us" "no").2.2.2 "nope"
      (by decide) (by decide),
    (risk_tier_total_silent_nonmatch ["pii"] "us" "no").1⟩

/-- C10: the tier is monotone in the data-type list under lowercase
containment, and invariant under duplication and reordering: two lists
containing each other up to lowercasing get the same tier. -/
theorem risk_tier_monotone (S T : List String) (res sh : String) :
    ((∀ x ∈ S, ∃ y ∈ T, pyLower x = pyLower y) →
      tierRank (computeRiskTier S res sh) ≤ tierRank (computeRiskTier T res sh))
    ∧ ((∀ x ∈ S, ∃ y ∈ T, pyLower x = pyLower y) →
       (∀ x ∈ T, ∃ y ∈ S, pyLower x = pyLower y) →
      computeRiskTier S res sh = computeRiskTier T res sh) := by
  constructor
  · intro hsub
    exact tierRank_tier_mono S T res sh (riskScore_mono S T res sh hsub)
  · intro hst hts
    exact tier_congr S T res sh
      (Nat.le_antisymm (riskScore_mono S T res sh hst) (riskScore_mono T S res sh hts))

/-- C10 witness: adding a label can only raise the tier, and duplicating and
reordering labels with case changes leaves it unchanged, at concrete inputs. -/
theorem risk_tier_monotone_witness :
    tierRank (computeRiskTier ["customer data"] "us" "no") ≤
      tierRank (computeRiskTier ["PII", "customer data"] "us" "no")
    ∧ computeRiskTier ["pii", "PII", "customer data", "pii"] "us" "no" =
      computeRiskTier ["Customer Data", "Pii"] "us" "no" := by
  exact ⟨(risk_tier_monotone ["customer data"] ["PII", "customer data"] "us" "no").1
      (by decide),
    (risk_tier_monotone ["pii", "PII", "customer data", "pii"] ["Customer Data", "Pii"]
      "us" "no").2 (by decide) (by decide)⟩

/-- Two intake records with equal fields are equal; stated by hand so the
proof term stays small. -/
theorem intakeExt (a b : Intake)
    (h1 : a.id = b.id)
    (h2 : a.system_name = b.system_name)
    (h3 : a.business_purpose = b.business_purpose)
    (h4 : a.build_vs_buy = b.build_vs_buy)
    (h5 : a.vendor_name = b.vendor_name)
    (h6 : a.deployment_status = b.deployment_status)
    (h7 : a.user_count = b.user_count)
    (h8 : a.human_in_the_loop = b.human_in_the_loop)
    (h9 : a.integration_points = b.integration_points)
    (h10 : a.technical_constraints = b.technical_constraints)
    (h11 : a.decision_classification = b.decision_classification)
    (h12 : a.output_usage_description = b.output_usage_description)
    (h13 : a.risk_flags = b.risk_flags)
    (h14 : a.approved_data_types = b.approved_data_types)
    (h15 : a.prohibited_data_types = b.prohibited_data_types)
    (h16 : a.user_awareness_training = b.user_awareness_training)
    (h17 : a.user_awareness_attestation = b.user_awareness_attestation)
    (h18 : a.technical_prevention_measures = b.technical_prevention_measures)
    (h19 : a.data_retention_policy = b.data_retention_policy)
    (h20 : a.data_retention_details = b.data_retention_details)
    (h21 : a.data_egress_risk = b.data_egress_risk)
    (h22 : a.data_egress_notes = b.data_egress_notes)
    (h23 : a.approving_authority = b.approving_authority)
    (h24 : a.approving_authority_title = b.approving_authority_title)
    (h25 : a.approving_authority_email = b.approving_authority_email)
    (h26 : a.business_owner = b.business_owner)
    (h27 : a.business_owner_email = b.business_owner_email)
    (h28 : a.technical_owner = b.technical_owner)
    (h29 : a.technical_owner_email = b.technical_owner_email)
    (h30 : a.access_control_owner = b.access_control_owner)
    (h31 : a.risk_oversight_owner = b.risk_oversight_owner)
    (h32 : a.federal_contracts = b.federal_contracts)
    (h33 : a.federal_contract_types = b.federal_contract_types)
    (h34 : a.federal_contract_details = b.federal_contract_details)
    (h35 : a.tenant_segregation = b.tenant_segregation)
    (h36 : a.tenant_segregation_details = b.tenant_segregation_details)
    (h37 : a.contract_clause_restrictions = b.contract_clause_restrictions)
    (h38 : a.workforce_impact = b.workforce_impact)
    (h39 : a.workforce_impact_details = b.workforce_impact_details)
    (h40 : a.customer_impact = b.customer_impact)
    (h41 : a.customer_impact_details = b.customer_impact_details)
    (h42 : a.usage_logging_enabled = b.usage_logging_enabled)
    (h43 : a.usage_logging_details = b.usage_logging_details)
    (h44 : a.logging_access_owner = b.logging_access_owner)
    (h45 : a.compliance_visibility = b.compliance_visibility)
    (h46 : a.compliance_visibility_details = b.compliance_visibility_details)
    (h47 : a.misuse_detection_capability = b.misuse_detection_capability)
    (h48 : a.misuse_detection_details = b.misuse_detection_details)
    (h49 : a.incident_response_documented = b.incident_response_documented)
    (h50 : a.incident_response_path = b.incident_response_path)
    (h51 : a.escalation_contacts = b.escalation_contacts)
    (h52 : a.identified_gaps = b.identified_gaps)
    (h53 : a.readiness_status = b.readiness_status)
    (h54 : a.conditions_for_approval = b.conditions_for_approval)
    (h55 : a.restrictions = b.restrictions)
    (h56 : a.recommended_phase = b.recommended_phase)
    (h57 : a.readiness_notes = b.readiness_notes)
    (h58 : a.readiness_computed_at = b.readiness_computed_at)
    (h59 : a.intake_status = b.intake_status)
    (h60 : a.current_step = b.current_step)
    (h61 : a.section_completion = b.section_completion)
    (h62 : a.computed_risk_tier = b.computed_risk_tier)
    (h63 : a.created_at = b.created_at)
    (h64 : a.updated_at = b.updated_at)
    (h65 : a.submitted_at = b.submitted_at)
    (h66 : a.last_autosave_at = b.last_autosave_at)
    (h67 : a.risk_assessments = b.risk_assessments)
    (h68 : a.required_artifacts = b.required_artifacts)
    (h69 : a.action_items = b.action_items) :
    a = b := by
  cases a
  cases b
  simp only [Intake.mk.injEq]
  exact ⟨h1, h2, h3, h4, h5, h6, h7, h8, h9, h10, h11, h12, h13, h14, h15, h16, h17, h18, h19, h20, h21, h22, h23, h24, h25, h26, h27, h28, h29, h30, h31, h32, h33, h34, h35, h36, h37, h38, h39, h40, h41, h42, h43, h44, h45, h46, h47, h48, h49, h50, h51, h52, h53, h54, h55, h56, h57, h58, h59, h60, h61, h62, h63, h64, h65, h66, h67, h68, h69⟩

/-- Merging the same top-level field twice is the same as merging it once. -/
theorem mergeField_idem {α : Type} (u : Option α) (cur : α) :
    mergeField u (mergeField u cur) = mergeField u cur := by
  cases u <;> rfl

/-- Merging the same section field twice is the same as merging it once. -/
theorem mf_idem {σ α : Type} (sec : Option σ) (get : σ → Option (Option α))
    (cur : Option α) : mf sec get (mf sec get cur) = mf sec get cur := by
  cases sec with
  | none => rfl
  | some s => exact mergeField_idem (get s) cur

/-- C3: the merge overwrites exactly the fields present in the update. For
every section of the update: when the section is absent every field of that
section keeps its value, and when it is present each field of the record
takes the sent value when the field was set, including an explicit null or
empty value, and keeps its value otherwise; the two pseudo-fields
identified_gaps and current_step are merged directly onto the record. -/
theorem merge_rule_spec (i : Intake) (u : IntakeSectionUpdate) :
    (u.section_1 = none →
      (applySectionUpdates i u).system_name = i.system_name
      ∧ (applySectionUpdates i u).business_purpose = i.business_purpose
      ∧ (applySectionUpdates i u).build_vs_buy = i.build_vs_buy
      ∧ (applySectionUpdates i u).vendor_name = i.vendor_name
      ∧ (applySectionUpdates i u).deployment_status = i.deployment_status
      ∧ (applySectionUpdates i u).user_count = i.user_count
      ∧ (applySectionUpdates i u).human_in_the_loop = i.human_in_the_loop
      ∧ (applySectionUpdates i u).integration_points = i.integration_points
      ∧ (applySectionUpdates i u).technical_constraints = i.technical_constraints)
    ∧ (∀ s, u.section_1 = some s →
      (applySectionUpdates i u).system_name = s.system_name.getD i.system_name
      ∧ (applySectionUpdates i u).business_purpose = s.business_purpose.getD i.business_purpose
      ∧ (applySectionUpdates i u).build_vs_buy = s.build_vs_buy.getD i.build_vs_buy
      ∧ (applySectionUpdates i u).vendor_name = s.vendor_name.getD i.vendor_name
      ∧ (applySectionUpdates i u).deployment_status = s.deployment_status.getD i.deployment_status
      ∧ (applySectionUpdates i u).user_count = s.user_count.getD i.user_count
      ∧ (applySectionUpdates i u).human_in_the_loop = s.human_in_the_loop.getD i.human_in_the_loop
      ∧ (applySectionUpdates i u).integration_points = s.integration_points.getD i.integration_points
      ∧ (applySectionUpdates i u).technical_constraints = s.technical_constraints.getD i.technical_constraints)
    ∧ (u.section_2 = none →
      (applySectionUpdates i u).decision_classification = i.decision_classification
      ∧ (applySectionUpdates i u).output_usage_description = i.output_usage_description
      ∧ (applySectionUpdates i u).risk_flags = i.risk_flags)
    ∧ (∀ s, u.section_2 = some s →
      (applySectionUpdates i u).decision_classification = s.decision_classification.getD i.decision_classification
      ∧ (applySectionUpdates i u).output_usage_description = s.output_usage_description.getD i.output_usage_description
      ∧ (applySectionUpdates i u).risk_flags = s.risk_flags.getD i.risk_flags)
    ∧ (u.section_3 = none →
      (applySectionUpdates i u).approved_data_types = i.approved_data_types
      ∧ (applySectionUpdates i u).prohibited_data_types = i.prohibited_data_types
      ∧ (applySectionUpdates i u).user_awareness_training = i.user_awareness_training
      ∧ (applySectionUpdates i u).user_awareness_attestation = i.user_awareness_attestation
      ∧ (applySectionUpdates i u).technical_prevention_measures = i.technical_prevention_measures
      ∧ (applySectionUpdates i u).data_retention_policy = i.data_retention_policy
      ∧ (applySectionUpdates i u).data_retention_details = i.data_retention_details
      ∧ (applySectionUpdates i u).data_egress_risk = i.data_egress_risk
      ∧ (applySectionUpdates i u).data_egress_notes = i.data_egress_notes)
    ∧ (∀ s, u.section_3 = some s →
      (applySectionUpdates i u).approved_data_types = s.approved_data_types.getD i.approved_data_types
      ∧ (applySectionUpdates i u).prohibited_data_types = s.prohibited_data_types.getD i.prohibited_data_types
      ∧ (applySectionUpdates i u).user_awareness_training = s.user_awareness_training.getD i.user_awareness_training
      ∧ (applySectionUpdates i u).user_awareness_attestation = s.user_awareness_attestation.getD i.user_awareness_attestation
      ∧ (applySectionUpdates i u).technical_prevention_measures = s.technical_prevention_measures.getD i.technical_prevention_measures
      ∧ (applySectionUpdates i u).data_retention_policy = s.data_retention_policy.getD i.data_retention_policy
      ∧ (applySectionUpdates i u).data_retention_details = s.data_retention_details.getD i.data_retention_details
      ∧ (applySectionUpdates i u).data_egress_risk = s.data_egress_risk.getD i.data_egress_risk
      ∧ (applySectionUpdates i u).data_egress_notes = s.data_egress_notes.getD i.data_egress_notes)
    ∧ (u.section_4 = none →
      (applySectionUpdates i u).approving_authority = i.approving_authority
      ∧ (applySectionUpdates i u).approving_authority_title = i.approving_authority_title
      ∧ (applySectionUpdates i u).approving_authority_email = i.approving_authority_email
      ∧ (applySectionUpdates i u).business_owner = i.business_owner
      ∧ (applySectionUpdates i u).business_owner_email = i.business_owner_email
      ∧ (applySectionUpdates i u).technical_owner = i.technical_owner
      ∧ (applySectionUpdates i u).technical_owner_email = i.technical_owner_email
      ∧ (applySectionUpdates i u).access_control_owner = i.access_control_owner
      ∧ (applySectionUpdates i u).risk_oversight_owner = i.risk_oversight_owner)
    ∧ (∀ s, u.section_4 = some s →
      (applySectionUpdates i u).approving_authority = s.approving_authority.getD i.approving_authority
      ∧ (applySectionUpdates i u).approving_authority_title = s.approving_authority_title.getD i.approving_authority_title
      ∧ (applySectionUpdates i u).approving_authority_email = s.approving_authority_email.getD i.approving_authority_email
      ∧ (applySectionUpdates i u).business_owner = s.business_owner.getD i.business_owner
      ∧ (applySectionUpdates i u).business_owner_email = s.business_owner_email.getD i.business_owner_email
      ∧ (applySectionUpdates i u).technical_owner = s.technical_owner.getD i.technical_owner
      ∧ (applySectionUpdates i u).technical_owner_email = s.technical_owner_email.getD i.technical_owner_email
      ∧ (applySectionUpdates i u).access_control_owner = s.access_control_owner.getD i.access_control_owner
      ∧ (applySectionUpdates i u).risk_oversight_owner = s.risk_oversight_owner.getD i.risk_oversight_owner)
    ∧ (u.section_5 = none →
      (applySectionUpdates i u).federal_contracts = i.federal_contracts
      ∧ (applySectionUpdates i u).federal_contract_types = i.federal_contract_types
      ∧ (applySectionUpdates i u).federal_contract_details = i.federal_contract_details
      ∧ (applySectionUpdates i u).tenant_segregation = i.tenant_segregation
      ∧ (applySectionUpdates i u).tenant_segregation_details = i.tenant_segregation_details
      ∧ (applySectionUpdates i u).contract_clause_restrictions = i.contract_clause_restrictions
      ∧ (applySectionUpdates i u).workforce_impact = i.workforce_impact
      ∧ (applySectionUpdates i u).workforce_impact_details = i.workforce_impact_details
      ∧ (applySectionUpdates i u).customer_impact = i.customer_impact
      ∧ (applySectionUpdates i u).customer_impact_details = i.customer_impact_details)
    ∧ (∀ s, u.section_5 = some s →
      (applySectionUpdates i u).federal_contracts = s.federal_contracts.getD i.federal_contracts
      ∧ (applySectionUpdates i u).federal_contract_types = s.federal_contract_types.getD i.federal_contract_types
      ∧ (applySectionUpdates i u).federal_contract_details = s.federal_contract_details.getD i.federal_contract_details
      ∧ (applySectionUpdates i u).tenant_segregation = s.tenant_segregation.getD i.tenant_segregation
      ∧ (applySectionUpdates i u).tenant_segregation_details = s.tenant_segregation_details.getD i.tenant_segregation_details
      ∧ (applySectionUpdates i u).contract_clause_restrictions = s.contract_clause_restrictions.getD i.contract_clause_restrictions
      ∧ (applySectionUpdates i u).workforce_impact = s.workforce_impact.getD i.workforce_impact
      ∧ (applySectionUpdates i u).workforce_impact_details = s.workforce_impact_details.getD i.workforce_impact_details
      ∧ (applySectionUpdates i u).customer_impact = s.customer_impact.getD i.customer_impact
      ∧ (applySectionUpdates i u).customer_impact_details = s.customer_impact_details.getD i.customer_impact_details)
    ∧ (u.section_6 = none →
      (applySectionUpdates i u).usage_logging_enabled = i.usage_logging_enabled
      ∧ (applySectionUpdates i u).usage_logging_details = i.usage_logging_details
      ∧ (applySectionUpdates i u).logging_access_owner = i.logging_access_owner
      ∧ (applySectionUpdates i u).compliance_visibility = i.compliance_visibility
      ∧ (applySectionUpdates i u).compliance_visibility_details = i.compliance_visibility_details
      ∧ (applySectionUpdates i u).misuse_detection_capability = i.misuse_detection_capability
      ∧ (applySectionUpdates i u).misuse_detection_details = i.misuse_detection_details
      ∧ (applySectionUpdates i u).incident_response_documented = i.incident_response_documented
      ∧ (applySectionUpdates i u).incident_response_path = i.incident_response_path
      ∧ (applySectionUpdates i u).escalation_contacts = i.escalation_contacts)
    ∧ (∀ s, u.section_6 = some s →
      (applySectionUpdates i u).usage_logging_enabled = s.usage_logging_enabled.getD i.usage_logging_enabled
      ∧ (applySectionUpdates i u).usage_logging_details = s.usage_logging_details.getD i.usage_logging_details
      ∧ (applySectionUpdates i u).logging_access_owner = s.logging_access_owner.getD i.logging_access_owner
      ∧ (applySectionUpdates i u).compliance_visibility = s.compliance_visibility.getD i.compliance_visibility
      ∧ (applySectionUpdates i u).compliance_visibility_details = s.compliance_visibility_details.getD i.compliance_visibility_details
      ∧ (applySectionUpdates i u).misuse_detection_capability = s.misuse_detection_capability.getD i.misuse_detection_capability
      ∧ (applySectionUpdates i u).misuse_detection_details = s.misuse_detection_details.getD i.misuse_detection_details
      ∧ (applySectionUpdates i u).incident_response_documented = s.incident_response_documented.getD i.incident_response_documented
      ∧ (applySectionUpdates i u).incident_response_path = s.incident_response_path.getD i.incident_response_path
      ∧ (applySectionUpdates i u).escalation_contacts = s.escalation_contacts.getD i.escalation_contacts)
    ∧ (u.section_9 = none →
      (applySectionUpdates i u).readiness_status = i.readiness_status
      ∧ (applySectionUpdates i u).conditions_for_approval = i.conditions_for_approval
      ∧ (applySectionUpdates i u).restrictions = i.restrictions
      ∧ (applySectionUpdates i u).recommended_phase = i.recommended_phase
      ∧ (applySectionUpdates i u).readiness_notes = i.readiness_notes)
    ∧ (∀ s, u.section_9 = some s →
      (applySectionUpdates i u).readiness_status = s.readiness_status.getD i.readiness_status
      ∧ (applySectionUpdates i u).conditions_for_approval = s.conditions_for_approval.getD i.conditions_for_approval
      ∧ (applySectionUpdates i u).restrictions = s.restrictions.getD i.restrictions
      ∧ (applySectionUpdates i u).recommended_phase = s.recommended_phase.getD i.recommended_phase
      ∧ (applySectionUpdates i u).readiness_notes = s.readiness_notes.getD i.readiness_notes)
    ∧ (applySectionUpdates i u).identified_gaps = u.identified_gaps.getD i.identified_gaps
    ∧ (applySectionUpdates i u).current_step = u.current_step.getD i.current_step := by
  refine ⟨?_, ?_, ?_, ?_, ?_, ?_, ?_, ?_, ?_, ?_, ?_, ?_, ?_, ?_, ?_, ?_⟩ <;>
    first
    | (intro h; simp [applySectionUpdates, mf, mergeField, h])
    | (intro s h; simp [applySectionUpdates, mf, mergeField, h])
    | simp [applySectionUpdates, mergeField]

/-- C3 witness: on a concrete record whose section 3 holds an approved list
and a prohibited list, an update sending only the approved field of section
3 as an explicit empty list clears exactly that field and leaves the sibling
untouched, while an empty update leaves both unchanged. -/
theorem merge_rule_spec_witness :
    (applySectionUpdates intakeWithData clearApprovedUpdate).approved_data_types = some []
    ∧ (applySectionUpdates intakeWithData clearApprovedUpdate).prohibited_data_types =
        some ["health data"]
    ∧ (applySectionUpdates intakeWithData { }).approved_data_types = some ["pii"]
    ∧ (applySectionUpdates intakeWithData { }).prohibited_data_types = some ["health data"] := by
  have h1 := (merge_rule_spec intakeWithData clearApprovedUpdate).2.2.2.2.2.1
    { approved_data_types := some (some []) } rfl
  have h2 := (merge_rule_spec intakeWithData { }).2.2.2.2.1 rfl
  exact ⟨h1.1, by simpa using h1.2.1, by simpa using h2.1, by simpa using h2.2.1⟩

/-- C7: the merge rule is idempotent. Applying the same update twice gives
the same record as applying it once, so recomputing completion after a
second application gives the same completion map. -/
theorem merge_idempotent (i : Intake) (u : IntakeSectionUpdate) :
    applySectionUpdates (applySectionUpdates i u) u = applySectionUpdates i u
    ∧ computeSectionCompletion (applySectionUpdates (applySectionUpdates i u) u) =
        computeSectionCompletion (applySectionUpdates i u) := by
  have h : applySectionUpdates (applySectionUpdates i u) u = applySectionUpdates i u := by
    apply intakeExt <;> simp [applySectionUpdates, mf_idem, mergeField_idem]
  exact ⟨h, by rw [h]⟩

/-- C9: the autosave update never changes the lifecycle status, the
submission, creation and modification timestamps, the stored risk tier, the
readiness computation stamp, or any of the three owned collections; it can
only rewrite section fields, the pseudo-fields, the completion map computed
from the merged state, and the autosave stamp. -/
theorem autosave_frame (i : Intake) (u : IntakeSectionUpdate) (now : Nat) :
    (updateIntake i u now).intake_status = i.intake_status
    ∧ (updateIntake i u now).submitted_at = i.submitted_at
    ∧ (updateIntake i u now).created_at = i.created_at
    ∧ (updateIntake i u now).updated_at = i.updated_at
    ∧ (updateIntake i u now).computed_risk_tier = i.computed_risk_tier
    ∧ (updateIntake i u now).readiness_computed_at = i.readiness_computed_at
    ∧ (updateIntake i u now).id = i.id
    ∧ (updateIntake i u now).risk_assessments = i.risk_assessments
    ∧ (updateIntake i u now).required_artifacts = i.required_artifacts
    ∧ (updateIntake i u now).action_items = i.action_items
    ∧ (updateIntake i u now).section_completion =
        computeSectionCompletion (applySectionUpdates i u)
    ∧ (updateIntake i u now).last_autosave_at = some now :=
  ⟨rfl, rfl, rfl, rfl, rfl, rfl, rfl, rfl, rfl, rfl, rfl, rfl⟩

/-- A concrete intake that is no longer a draft. -/
def reviewIntake : Intake := { blankIntake with intake_status := "under_review" }

/-- C4 counterexample: submit_intake carries no status guard, so on a record
whose status is not draft the submit operation still succeeds, sets the
status to submitted and stamps the submission time, refuting the claim that
it does so only from draft. -/
theorem submit_guard_cex :
    reviewIntake.intake_status ≠ "draft"
    ∧ (submitIntake reviewIntake 5).intake_status = "submitted"
    ∧ (submitIntake reviewIntake 5).submitted_at = some 5 :=
  ⟨by decide, rfl, rfl⟩

/-- C4 amended: submit succeeds from every prior status, unconditionally
setting the status to submitted and stamping the submission time; in
particular the resulting status is never draft, so a submitted record never
returns to draft. -/
theorem submit_unconditional (i : Intake) (now : Nat) :
    (submitIntake i now).intake_status = "submitted"
    ∧ (submitIntake i now).submitted_at = some now
    ∧ (submitIntake i now).intake_status ≠ "draft" := by
  refine ⟨rfl, rfl, ?_⟩
  show ("submitted" : String) ≠ "draft"
  decide

/-- C8: on a legacy partial update the risk tier is recomputed exactly when
the update carries one of data_types, data_residency or external_sharing,
and then from the post-update values of those three fields; otherwise the
stored tier is kept. -/
theorem usecase_update_recompute_policy (uc : UseCase) (u : UseCaseUpdate) :
    (updateUsecase uc u).risk_tier =
      (if u.data_types.isSome || u.data_residency.isSome || u.external_sharing.isSome then
        computeRiskTier (u.data_types.getD uc.data_types) (u.data_residency.getD uc.data_residency)
          (u.external_sharing.getD uc.external_sharing)
      else uc.risk_tier)
    ∧ (updateUsecase uc u).data_types = u.data_types.getD uc.data_types
    ∧ (updateUsecase uc u).data_residency = u.data_residency.getD uc.data_residency
    ∧ (updateUsecase uc u).external_sharing = u.external_sharing.getD uc.external_sharing := by
  by_cases h : (u.data_types.isSome || u.data_residency.isSome || u.external_sharing.isSome) = true
  · simp [updateUsecase, h]
  · simp [updateUsecase, h]

end AIRegistry
